import Mathlib

/-!
Verification of the administrative-interface contract layer of
rdb_protocol/context.hpp: value types (return_changes_t,
sindex_rename_result_t, admin_identifier_format_t), the db_t handle,
table_generate_config_params_t with make_default, and a state-machine model of
the reql_cluster_interface_t operations whose implementations live behind pure
virtual methods.
-/

/-- Validated cluster names (name_string_t); the validation predicate is not
part of this header, so names are modelled as plain strings. -/
abbrev name_string_t := String

/-- The return_changes_t enumeration from the source: NO = 0, YES = 1. -/
inductive return_changes_t where
  | NO
  | YES
deriving DecidableEq, Repr

/-- The pinned integer encoding of return_changes_t (NO = 0, YES = 1),
serialized as a single int8. -/
def return_changes_toInt : return_changes_t → Int
  | return_changes_t.NO => 0
  | return_changes_t.YES => 1

/-- Modelled from the spec: the deserializer generated by
ARCHIVE_PRIM_MAKE_RANGED_SERIALIZABLE(return_changes_t, int8_t, NO, YES)
(its body is not under src/) reads one int8 and rejects any value outside
the closed range [NO, YES] = [0, 1]. -/
def return_changes_deser (b : Int) : Option return_changes_t :=
  if b = 0 then some return_changes_t.NO
  else if b = 1 then some return_changes_t.YES
  else none

/-- The sindex_rename_result_t enumeration from the source. -/
inductive sindex_rename_result_t where
  | OLD_NAME_DOESNT_EXIST
  | NEW_NAME_EXISTS
  | SUCCESS
deriving DecidableEq, Repr

/-- The admin_identifier_format_t enumeration from the source; the source
comment pins the static_cast mapping onto the set of values 0 and 1. -/
inductive admin_identifier_format_t where
  | name
  | uuid
deriving DecidableEq, Repr

/-- The pinned numeric encoding of admin_identifier_format_t:
name = 0, uuid = 1. -/
def admin_identifier_format_toNat : admin_identifier_format_t → Nat
  | admin_identifier_format_t.name => 0
  | admin_identifier_format_t.uuid => 1

/-- The ql::db_t handle from the source: an immutable id paired with an
immutable name, both set by the constructor; uuid_u is modelled as Nat. -/
structure db_t where
  id : Nat
  name : name_string_t
deriving DecidableEq, Repr

/-- The table_generate_config_params_t structure from the source: a shard
count, a map from replica tag to replica count (std::map modelled as an
association list), and a primary replica tag. The default constructor of the
C++ class initializes none of the fields, so every combination of field values
is representable. -/
structure table_generate_config_params_t where
  num_shards : Nat
  num_replicas : List (name_string_t × Nat)
  primary_replica_tag : name_string_t
deriving DecidableEq, Repr

/-- The make_default factory from the source: one shard, the single replica
tag "default" with count 1, and primary replica tag "default". -/
def table_generate_config_params_t.make_default : table_generate_config_params_t :=
  ⟨1, [("default", 1)], "default"⟩

/-- The Table replication invariant stated by the spec: the primary replica
tag is a key of the replica-count map with count at least 1, every
replica-count value is at least 1, and the shard count is at least 1. -/
def configValid (p : table_generate_config_params_t) : Bool :=
  decide (1 ≤ p.num_shards) &&
  (match p.num_replicas.lookup p.primary_replica_tag with
   | some c => decide (1 ≤ c)
   | none => false) &&
  p.num_replicas.all (fun kv => decide (1 ≤ kv.2))

/-- C6: the default ReplicationConfig is exactly num_shards = 1, the single
replica tag "default" with count 1, and primary replica tag "default", and it
satisfies the Table replication invariant. -/
theorem make_default_is_singleton_default_and_valid :
    table_generate_config_params_t.make_default.num_shards = 1 ∧
    table_generate_config_params_t.make_default.num_replicas = [("default", 1)] ∧
    table_generate_config_params_t.make_default.primary_replica_tag = "default" ∧
    configValid table_generate_config_params_t.make_default = true := by
  refine ⟨rfl, rfl, rfl, ?_⟩
  decide

/-- C9: return_changes_t has exactly the two values NO and YES with the pinned
int8 encoding NO = 0, YES = 1; deserialize-then-serialize round-trips every
byte in the set containing 0 and 1, and deserialization of any other byte is
rejected. -/
theorem return_changes_wire_roundtrip :
    (∀ r : return_changes_t, r = return_changes_t.NO ∨ r = return_changes_t.YES) ∧
    return_changes_toInt return_changes_t.NO = 0 ∧
    return_changes_toInt return_changes_t.YES = 1 ∧
    (∀ b : Int, (b = 0 ∨ b = 1) →
      Option.map return_changes_toInt (return_changes_deser b) = some b) ∧
    (∀ b : Int, b ≠ 0 → b ≠ 1 → return_changes_deser b = none) := by
  refine ⟨fun r => ?_, rfl, rfl, fun b hb => ?_, fun b h0 h1 => ?_⟩
  · cases r
    · exact Or.inl rfl
    · exact Or.inr rfl
  · rcases hb with h | h <;> subst h <;> rfl
  · simp [return_changes_deser, h0, h1]

/-- Witness for C9: the round-trip holds at byte 1 and byte 7 is rejected. -/
theorem return_changes_wire_roundtrip_witness :
    Option.map return_changes_toInt (return_changes_deser 1) = some 1 ∧
    return_changes_deser 7 = none := by
  refine ⟨return_changes_wire_roundtrip.2.2.2.1 1 (Or.inr rfl), ?_⟩
  exact return_changes_wire_roundtrip.2.2.2.2 7 (by decide) (by decide)

/-- Modelled from the spec: the readiness levels of protocol_api.hpp
(table_readiness_t is not under src/), ordered
unready < outdated_reads < reads < writes. -/
inductive table_readiness_t where
  | unready
  | outdated_reads
  | reads
  | writes
deriving DecidableEq, Repr

/-- The position of a readiness level in the spec ordering. -/
def readiness_level : table_readiness_t → Nat
  | table_readiness_t.unready => 0
  | table_readiness_t.outdated_reads => 1
  | table_readiness_t.reads => 2
  | table_readiness_t.writes => 3

/-- Boolean comparison of readiness levels. -/
def readiness_le (a b : table_readiness_t) : Bool :=
  decide (readiness_level a ≤ readiness_level b)

/-- The write_durability_t requirement: soft or hard. -/
inductive write_durability_t where
  | soft
  | hard
deriving DecidableEq, Repr

/-- Modelled from the spec: the error taxonomy of the error-handling design. -/
inductive error_kind where
  | NotFound
  | AlreadyExists
  | NameConflict
  | Invalid
  | Unavailable
deriving DecidableEq, Repr

/-- The calling convention of reql_cluster_interface_t: every method returns
true plus a payload on success, or false with a human-readable description in
the error_out parameter on failure, and every method can throw
interrupted_exc_t; the thrown exception is modelled as a third constructor,
distinct from the boolean-plus-description failure value, and the failure
value is tagged with the error taxonomy of the spec. -/
inductive admin_result (α : Type) where
  | success : α → admin_result α
  | failure : error_kind → String → admin_result α
  | interrupted : admin_result α
deriving DecidableEq, Repr

/-- True exactly on the boolean-plus-description failure value. -/
def is_failure_value {α : Type} : admin_result α → Bool
  | admin_result.failure _ _ => true
  | _ => false

/-- True exactly on the success outcome. -/
def is_success {α : Type} : admin_result α → Bool
  | admin_result.success _ => true
  | _ => false

/-- The taxonomy tag of a failure outcome, if any. -/
def failure_kind {α : Type} : admin_result α → Option error_kind
  | admin_result.failure k _ => some k
  | _ => none

/-- Functorial action on the success payload of an admin_result. -/
def map_result {α β : Type} (f : α → β) : admin_result α → admin_result β
  | admin_result.success a => admin_result.success (f a)
  | admin_result.failure k m => admin_result.failure k m
  | admin_result.interrupted => admin_result.interrupted

/-- One table record of the modelled cluster: the identity fields (id,
primary key) are fixed at creation; the replication config, readiness and
secondary-index list are the mutable state. -/
structure TableRec where
  table_id : Nat
  db_id : Nat
  tbl_name : name_string_t
  pkey : String
  config : table_generate_config_params_t
  readiness : table_readiness_t
  sindexes : List String
deriving DecidableEq, Repr

/-- A copy of a table record with a new replication config; all identity
fields are carried over unchanged. -/
def TableRec.set_config (t : TableRec) (p : table_generate_config_params_t) : TableRec :=
  ⟨t.table_id, t.db_id, t.tbl_name, t.pkey, p, t.readiness, t.sindexes⟩

/-- A copy of a table record with a new secondary-index list; all identity
fields are carried over unchanged. -/
def TableRec.set_sindexes (t : TableRec) (xs : List String) : TableRec :=
  ⟨t.table_id, t.db_id, t.tbl_name, t.pkey, t.config, t.readiness, xs⟩

/-- Modelled from the spec: the administrative state visible through
reql_cluster_interface_t — the set of databases, the set of tables, and a
fresh-id counter for creation. -/
structure ClusterState where
  dbs : List db_t
  tables : List TableRec
  next_id : Nat
deriving DecidableEq, Repr

/-- The table of a database with the given name, if any. -/
def findTable (s : ClusterState) (dbid : Nat) (nm : name_string_t) : Option TableRec :=
  s.tables.find? (fun t => t.db_id == dbid && t.tbl_name == nm)

/-- The table with the given id, if any. -/
def findTableById (s : ClusterState) (tid : Nat) : Option TableRec :=
  s.tables.find? (fun t => t.table_id == tid)

/-- The database with the given id, if any. -/
def findDbById (s : ClusterState) (i : Nat) : Option db_t :=
  s.dbs.find? (fun d => d.id == i)

/-- Modelled from the spec: db_create creates a database with a fresh id and
fails AlreadyExists if the name is taken; interruption aborts with the
interrupted exception. -/
def db_create (nm : name_string_t) (interruptor : Bool) (s : ClusterState) :
    admin_result Unit × ClusterState :=
  if interruptor then (admin_result.interrupted, s)
  else if s.dbs.any (fun d => d.name == nm) then
    (admin_result.failure error_kind.AlreadyExists "Database already exists.", s)
  else
    (admin_result.success (), ⟨s.dbs ++ [⟨s.next_id, nm⟩], s.tables, s.next_id + 1⟩)

/-- Modelled from the spec: db_drop removes the database and all its tables
and fails NotFound if the name is absent. -/
def db_drop (nm : name_string_t) (interruptor : Bool) (s : ClusterState) :
    admin_result Unit × ClusterState :=
  if interruptor then (admin_result.interrupted, s)
  else
    match s.dbs.find? (fun d => d.name == nm) with
    | none => (admin_result.failure error_kind.NotFound "Database does not exist.", s)
    | some d =>
      (admin_result.success (),
        ⟨s.dbs.filter (fun d2 => d2.id != d.id),
         s.tables.filter (fun t => t.db_id != d.id), s.next_id⟩)

/-- Modelled from the spec: table_create creates a table with a fresh id,
fails AlreadyExists if the name is taken in the database and Invalid if the
replication config violates its invariant, and does not return success until
the table is ready for reads. -/
def table_create (nm : name_string_t) (db : db_t)
    (config_params : table_generate_config_params_t) (primary_key : String)
    (_durability : write_durability_t) (interruptor : Bool) (s : ClusterState) :
    admin_result Unit × ClusterState :=
  if interruptor then (admin_result.interrupted, s)
  else if (findTable s db.id nm).isSome then
    (admin_result.failure error_kind.AlreadyExists "Table already exists.", s)
  else if configValid config_params = false then
    (admin_result.failure error_kind.Invalid "Invalid replication configuration.", s)
  else
    (admin_result.success (),
      ⟨s.dbs,
       s.tables ++ [⟨s.next_id, db.id, nm, primary_key, config_params,
                     table_readiness_t.reads, []⟩],
       s.next_id + 1⟩)

/-- Modelled from the spec: table_drop removes the table and fails NotFound
if it is absent. -/
def table_drop (nm : name_string_t) (db : db_t) (interruptor : Bool)
    (s : ClusterState) : admin_result Unit × ClusterState :=
  if interruptor then (admin_result.interrupted, s)
  else if (findTable s db.id nm).isSome then
    (admin_result.success (),
      ⟨s.dbs, s.tables.filter (fun t => !(t.db_id == db.id && t.tbl_name == nm)),
       s.next_id⟩)
  else (admin_result.failure error_kind.NotFound "Table does not exist.", s)

/-- Modelled from the spec: table_reconfigure computes a new shard/replica
plan from the params; with dry_run it returns the proposed plan and leaves the
state untouched, otherwise it applies the plan to the table. It fails NotFound
if the table is absent and Invalid if the params violate the replication
invariant. -/
def table_reconfigure (db : db_t) (nm : name_string_t)
    (params : table_generate_config_params_t) (dry_run : Bool)
    (interruptor : Bool) (s : ClusterState) :
    admin_result table_generate_config_params_t × ClusterState :=
  if interruptor then (admin_result.interrupted, s)
  else
    match findTable s db.id nm with
    | none => (admin_result.failure error_kind.NotFound "Table does not exist.", s)
    | some _ =>
      if configValid params = false then
        (admin_result.failure error_kind.Invalid "Invalid replication configuration.", s)
      else if dry_run then
        (admin_result.success params, s)
      else
        (admin_result.success params,
          ⟨s.dbs,
           s.tables.map (fun u =>
             if u.db_id == db.id && u.tbl_name == nm then u.set_config params else u),
           s.next_id⟩)

/-- The shard/replica assignment reported by table_status for one table: the
replication config currently stored for it. -/
def table_status_shards (dbid : Nat) (nm : name_string_t) (s : ClusterState) :
    Option table_generate_config_params_t :=
  (findTable s dbid nm).map (fun t => t.config)

/-- Modelled from the spec: the immediate-success test of table_wait — true
exactly when a table_wait call at the given readiness level would return
success without blocking, that is, when the table exists and its readiness is
at least the requested level. -/
def table_wait_immediate (dbid : Nat) (nm : name_string_t)
    (level : table_readiness_t) (s : ClusterState) : Bool :=
  match findTable s dbid nm with
  | some t => readiness_le level t.readiness
  | none => false

/-- Modelled from the spec: sindex_rename on the secondary-index name list of
one table — OLD_NAME_DOESNT_EXIST when the old name is absent, NEW_NAME_EXISTS
when the new name is present and overwrite is off, otherwise SUCCESS with the
old name atomically swapped to the new name (replacing the new one when
overwrite is on). -/
def sindex_rename (sindexes : List String) (old_name new_name : String)
    (overwrite : Bool) : sindex_rename_result_t × List String :=
  if sindexes.contains old_name = false then
    (sindex_rename_result_t.OLD_NAME_DOESNT_EXIST, sindexes)
  else if sindexes.contains new_name && !overwrite then
    (sindex_rename_result_t.NEW_NAME_EXISTS, sindexes)
  else
    (sindex_rename_result_t.SUCCESS,
     new_name :: sindexes.filter (fun x => !(x == old_name) && !(x == new_name)))

/-- The sindex_list of a table handle: the stored secondary-index name list. -/
def sindex_list (sindexes : List String) : List String :=
  sindexes

/-- Modelled from the spec: sindex_rename lifted to the cluster state,
applying the rename to the secondary-index list of the addressed table. -/
def sindex_rename_cluster (db : db_t) (nm : name_string_t)
    (old_name new_name : String) (overwrite : Bool) (interruptor : Bool)
    (s : ClusterState) : admin_result sindex_rename_result_t × ClusterState :=
  if interruptor then (admin_result.interrupted, s)
  else
    match findTable s db.id nm with
    | none => (admin_result.failure error_kind.NotFound "Table does not exist.", s)
    | some t =>
      (admin_result.success (sindex_rename t.sindexes old_name new_name overwrite).1,
       ⟨s.dbs,
        s.tables.map (fun u =>
          if u.db_id == db.id && u.tbl_name == nm then
            u.set_sindexes (sindex_rename u.sindexes old_name new_name overwrite).2
          else u),
        s.next_id⟩)

/-- A resolved table handle as produced by table_find: the identity of the
resolved table plus the identifier format under which nested references inside
documents later returned through this handle are rendered. -/
structure table_handle_t where
  table_id : Nat
  pkey : String
  identifier_format : admin_identifier_format_t
deriving DecidableEq, Repr

/-- Modelled from the spec: table_find resolves a name in a database to a
table handle and fails NotFound when absent; the optional identifier format
(defaulting to name) is only stored in the handle for later rendering and
takes no part in the resolution. -/
def table_find (nm : name_string_t) (db : db_t)
    (identifier_format : Option admin_identifier_format_t) (interruptor : Bool)
    (s : ClusterState) : admin_result table_handle_t :=
  if interruptor then admin_result.interrupted
  else
    match findTable s db.id nm with
    | none => admin_result.failure error_kind.NotFound "Table does not exist."
    | some t =>
      admin_result.success
        ⟨t.table_id, t.pkey, identifier_format.getD admin_identifier_format_t.name⟩

/-- The id of the table a table_find outcome resolved to, if it succeeded. -/
def resolved_table_id (r : admin_result table_handle_t) : Option Nat :=
  match r with
  | admin_result.success h => some h.table_id
  | _ => none

/-- Modelled from the spec: how a nested database reference inside a returned
document is rendered under an identifier format — its name under name, its id
under uuid. -/
def render_db_ref (fmt : admin_identifier_format_t) (d : db_t) : String :=
  match fmt with
  | admin_identifier_format_t.name => d.name
  | admin_identifier_format_t.uuid => toString d.id

/-- The success payloads of the modelled administrative operations, merged
into one type so that every operation can be run through one dispatcher. -/
inductive admin_payload where
  | unit_payload : admin_payload
  | config_payload : table_generate_config_params_t → admin_payload
  | handle_payload : table_handle_t → admin_payload
  | rename_payload : sindex_rename_result_t → admin_payload
deriving DecidableEq, Repr

/-- One administrative operation request, covering the modelled subset of
reql_cluster_interface_t. -/
inductive admin_op where
  | op_db_create : name_string_t → admin_op
  | op_db_drop : name_string_t → admin_op
  | op_table_create : name_string_t → db_t → table_generate_config_params_t →
      String → write_durability_t → admin_op
  | op_table_drop : name_string_t → db_t → admin_op
  | op_table_reconfigure : db_t → name_string_t →
      table_generate_config_params_t → Bool → admin_op
  | op_sindex_rename : db_t → name_string_t → String → String → Bool → admin_op
  | op_table_find : name_string_t → db_t → Option admin_identifier_format_t → admin_op
deriving DecidableEq, Repr

/-- The dispatcher over the modelled administrative operations: every
operation takes the cancellation signal and the cluster state and produces one
admin_result outcome together with the successor state. -/
def run (op : admin_op) (interruptor : Bool) (s : ClusterState) :
    admin_result admin_payload × ClusterState :=
  match op with
  | admin_op.op_db_create nm =>
    let r := db_create nm interruptor s
    (map_result (fun _ => admin_payload.unit_payload) r.1, r.2)
  | admin_op.op_db_drop nm =>
    let r := db_drop nm interruptor s
    (map_result (fun _ => admin_payload.unit_payload) r.1, r.2)
  | admin_op.op_table_create nm db cfg pk dur =>
    let r := table_create nm db cfg pk dur interruptor s
    (map_result (fun _ => admin_payload.unit_payload) r.1, r.2)
  | admin_op.op_table_drop nm db =>
    let r := table_drop nm db interruptor s
    (map_result (fun _ => admin_payload.unit_payload) r.1, r.2)
  | admin_op.op_table_reconfigure db nm params dry =>
    let r := table_reconfigure db nm params dry interruptor s
    (map_result admin_payload.config_payload r.1, r.2)
  | admin_op.op_sindex_rename db nm old_name new_name ow =>
    let r := sindex_rename_cluster db nm old_name new_name ow interruptor s
    (map_result admin_payload.rename_payload r.1, r.2)
  | admin_op.op_table_find nm db fmt =>
    (map_result admin_payload.handle_payload (table_find nm db fmt interruptor s), s)

/-- A match found in the front part of an append is the match of the whole. -/
theorem find_append_some {α : Type} {p : α → Bool} {l₁ : List α} {a : α}
    (l₂ : List α) (h : l₁.find? p = some a) : (l₁ ++ l₂).find? p = some a := by
  induction l₁ with
  | nil => cases h
  | cons x xs ih =>
    rw [List.cons_append]
    by_cases hx : p x = true
    · rw [List.find?_cons_of_pos _ hx] at h ⊢
      exact h
    · rw [List.find?_cons_of_neg _ hx] at h ⊢
      exact ih h

/-- When the front part of an append has no match, searching the append is
searching the back part. -/
theorem find_append_none {α : Type} {p : α → Bool} {l₁ : List α}
    (l₂ : List α) (h : l₁.find? p = none) : (l₁ ++ l₂).find? p = l₂.find? p := by
  induction l₁ with
  | nil => rfl
  | cons x xs ih =>
    rw [List.cons_append]
    by_cases hx : p x = true
    · rw [List.find?_cons_of_pos _ hx] at h
      cases h
    · rw [List.find?_cons_of_neg _ hx] at h ⊢
      exact ih h

/-- Searching a filtered list is searching the original under the conjoined
predicate. -/
theorem find_filter_comm {α : Type} (q p : α → Bool) (l : List α) :
    (l.filter q).find? p = l.find? (fun a => q a && p a) := by
  induction l with
  | nil => rfl
  | cons x xs ih =>
    by_cases hq : q x = true
    · rw [List.filter_cons_of_pos hq]
      by_cases hp : p x = true
      · have hc : (fun a => q a && p a) x = true := by simp [hq, hp]
        rw [List.find?_cons_of_pos _ hp,
          @List.find?_cons_of_pos _ (fun a => q a && p a) x xs hc]
      · have hc : ¬(fun a => q a && p a) x = true := by simp [hq, hp]
        rw [List.find?_cons_of_neg _ hp,
          @List.find?_cons_of_neg _ (fun a => q a && p a) x xs hc, ih]
    · have hc : ¬(fun a => q a && p a) x = true := by simp [hq]
      rw [List.filter_cons_of_neg hq,
        @List.find?_cons_of_neg _ (fun a => q a && p a) x xs hc, ih]

/-- Searching a mapped list is mapping the search under the composed
predicate. -/
theorem find_map_comm {α β : Type} (f : α → β) (p : β → Bool) (l : List α) :
    (l.map f).find? p = Option.map f (l.find? (fun a => p (f a))) := by
  induction l with
  | nil => rfl
  | cons x xs ih =>
    rw [List.map_cons]
    by_cases hp : p (f x) = true
    · have hc : (fun a => p (f a)) x = true := hp
      rw [List.find?_cons_of_pos _ hp,
        @List.find?_cons_of_pos _ (fun a => p (f a)) x xs hc]
      rfl
    · have hc : ¬(fun a => p (f a)) x = true := hp
      rw [List.find?_cons_of_neg _ hp,
        @List.find?_cons_of_neg _ (fun a => p (f a)) x xs hc, ih]

/-- C3: table_reconfigure with dry_run set returns the proposed plan without
applying it — the cluster state after the call is exactly the state before it,
so the shard assignment reported by table_status is unchanged and no other
table state is modified. -/
theorem table_reconfigure_dry_run_no_effect :
    ∀ (db : db_t) (nm : name_string_t) (params : table_generate_config_params_t)
      (interruptor : Bool) (s : ClusterState),
      (table_reconfigure db nm params true interruptor s).2 = s ∧
      table_status_shards db.id nm (table_reconfigure db nm params true interruptor s).2 =
        table_status_shards db.id nm s := by
  intro db nm params interruptor s
  have h : (table_reconfigure db nm params true interruptor s).2 = s := by
    unfold table_reconfigure
    split
    · rfl
    · cases hf : findTable s db.id nm
      · rfl
      · by_cases hv : configValid params = false <;> simp [hv]
  exact ⟨h, by rw [h]⟩

/-- C5: admin_identifier_format_t has exactly the two values name and uuid
with the pinned numeric encoding name = 0 and uuid = 1; the tag selects how a
nested database reference is rendered (name against id), and table_find
resolves a name to the same table under any two identifier formats. -/
theorem identifier_format_pinned_resolution_independent :
    (∀ f : admin_identifier_format_t,
      f = admin_identifier_format_t.name ∨ f = admin_identifier_format_t.uuid) ∧
    admin_identifier_format_toNat admin_identifier_format_t.name = 0 ∧
    admin_identifier_format_toNat admin_identifier_format_t.uuid = 1 ∧
    (∀ d : db_t,
      render_db_ref admin_identifier_format_t.name d = d.name ∧
      render_db_ref admin_identifier_format_t.uuid d = toString d.id) ∧
    (∀ (nm : name_string_t) (db : db_t) (f1 f2 : Option admin_identifier_format_t)
       (interruptor : Bool) (s : ClusterState),
      resolved_table_id (table_find nm db f1 interruptor s) =
        resolved_table_id (table_find nm db f2 interruptor s)) := by
  refine ⟨fun f => ?_, rfl, rfl, fun d => ⟨rfl, rfl⟩, ?_⟩
  · cases f
    · exact Or.inl rfl
    · exact Or.inr rfl
  · intro nm db f1 f2 interruptor s
    unfold table_find
    split
    · rfl
    · cases hf : findTable s db.id nm <;> rfl

/-- C2: a successful table_create returns only once the new table is ready
for reads — immediately afterwards a table_wait at the reads level succeeds
without blocking; table_create fails AlreadyExists when the name is already
taken in the database and Invalid when the replication config violates its
invariant. -/
theorem table_create_ready_for_reads :
    ∀ (nm : name_string_t) (db : db_t) (cfg : table_generate_config_params_t)
      (pk : String) (dur : write_durability_t) (s : ClusterState),
      ((table_create nm db cfg pk dur false s).1 = admin_result.success () →
        table_wait_immediate db.id nm table_readiness_t.reads
          (table_create nm db cfg pk dur false s).2 = true) ∧
      ((findTable s db.id nm).isSome = true →
        failure_kind (table_create nm db cfg pk dur false s).1 =
          some error_kind.AlreadyExists) ∧
      ((findTable s db.id nm).isSome = false → configValid cfg = false →
        failure_kind (table_create nm db cfg pk dur false s).1 =
          some error_kind.Invalid) := by
  intro nm db cfg pk dur s
  by_cases hf : (findTable s db.id nm).isSome = true
  · refine ⟨?_, fun _ => ?_, fun h _ => ?_⟩
    · intro hsucc
      simp [table_create, hf] at hsucc
    · simp [table_create, hf, failure_kind]
    · rw [hf] at h
      cases h
  · have hf2 : (findTable s db.id nm).isSome = false := by
      cases h : (findTable s db.id nm).isSome
      · rfl
      · exact absurd h hf
    by_cases hv : configValid cfg = false
    · refine ⟨?_, fun h => ?_, fun _ _ => ?_⟩
      · intro hsucc
        simp [table_create, hf2, hv] at hsucc
      · rw [hf2] at h
        cases h
      · simp [table_create, hf2, hv, failure_kind]
    · refine ⟨?_, fun h => ?_, fun _ hv2 => ?_⟩
      · intro _
        have hvt : configValid cfg = true := by
          cases h : configValid cfg
          · exact absurd h hv
          · rfl
        have hnone : findTable s db.id nm = none := by
          cases h : findTable s db.id nm
          · rfl
          · rw [h] at hf2
            cases hf2
        have hstate : (table_create nm db cfg pk dur false s).2 =
            ⟨s.dbs,
             s.tables ++ [⟨s.next_id, db.id, nm, pk, cfg, table_readiness_t.reads, []⟩],
             s.next_id + 1⟩ := by
          simp [table_create, hf2, hvt]
        have happ : List.find? (fun t => t.db_id == db.id && t.tbl_name == nm)
            (s.tables ++ [⟨s.next_id, db.id, nm, pk, cfg, table_readiness_t.reads, []⟩]) =
            some ⟨s.next_id, db.id, nm, pk, cfg, table_readiness_t.reads, []⟩ := by
          rw [find_append_none _ hnone]
          apply List.find?_cons_of_pos
          simp
        rw [hstate]
        unfold table_wait_immediate findTable
        rw [show (ClusterState.mk s.dbs
            (s.tables ++ [⟨s.next_id, db.id, nm, pk, cfg, table_readiness_t.reads, []⟩])
            (s.next_id + 1)).tables =
            s.tables ++ [⟨s.next_id, db.id, nm, pk, cfg, table_readiness_t.reads, []⟩]
          from rfl]
        rw [happ]
        rfl
      · rw [hf2] at h
        cases h
      · exact absurd hv2 hv

/-- Witness for C2: on the empty cluster, creating a table with the default
config succeeds and leaves the table immediately waitable at the reads level,
and a second creation of the same name fails AlreadyExists. -/
theorem table_create_ready_for_reads_witness :
    table_wait_immediate 0 "t" table_readiness_t.reads
      (table_create "t" ⟨0, "d"⟩ table_generate_config_params_t.make_default "id"
        write_durability_t.hard false ⟨[⟨0, "d"⟩], [], 1⟩).2 = true ∧
    failure_kind
      (table_create "t" ⟨0, "d"⟩ table_generate_config_params_t.make_default "id"
        write_durability_t.hard false
        (table_create "t" ⟨0, "d"⟩ table_generate_config_params_t.make_default "id"
          write_durability_t.hard false ⟨[⟨0, "d"⟩], [], 1⟩).2).1 =
      some error_kind.AlreadyExists ∧
    failure_kind
      (table_create "u" ⟨0, "d"⟩ ⟨0, [], "default"⟩ "id"
        write_durability_t.hard false ⟨[⟨0, "d"⟩], [], 1⟩).1 =
      some error_kind.Invalid := by
  refine ⟨?_, ?_, ?_⟩
  · exact (table_create_ready_for_reads "t" ⟨0, "d"⟩
      table_generate_config_params_t.make_default "id" write_durability_t.hard
      ⟨[⟨0, "d"⟩], [], 1⟩).1 (by decide)
  · exact (table_create_ready_for_reads "t" ⟨0, "d"⟩
      table_generate_config_params_t.make_default "id" write_durability_t.hard
      (table_create "t" ⟨0, "d"⟩ table_generate_config_params_t.make_default "id"
        write_durability_t.hard false ⟨[⟨0, "d"⟩], [], 1⟩).2).2.1 (by decide)
  · exact (table_create_ready_for_reads "u" ⟨0, "d"⟩ ⟨0, [], "default"⟩ "id"
      write_durability_t.hard ⟨[⟨0, "d"⟩], [], 1⟩).2.2 (by decide) (by decide)

/-- Counterexample for C4: with old = new = "a" and overwrite on a table whose
index list is exactly ["a"], sindex_rename succeeds, yet sindex_list still
contains the old name afterwards. -/
theorem sindex_rename_same_name_counterexample :
    (sindex_rename ["a"] "a" "a" true).1 = sindex_rename_result_t.SUCCESS ∧
    "a" ∈ sindex_list (sindex_rename ["a"] "a" "a" true).2 := by
  decide

/-- C4 amended: sindex_rename has exactly three outcomes — it fails
OLD_NAME_DOESNT_EXIST when the old name is absent; otherwise it fails
NEW_NAME_EXISTS when the new name exists and overwrite is off; otherwise it
succeeds (atomically replacing the new name when overwrite is on), after which
the new name is listed and, provided the two names differ, sindex_list no
longer contains the old name. -/
theorem sindex_rename_outcomes :
    ∀ (sindexes : List String) (old_name new_name : String) (overwrite : Bool),
      (old_name ∉ sindexes →
        sindex_rename sindexes old_name new_name overwrite =
          (sindex_rename_result_t.OLD_NAME_DOESNT_EXIST, sindexes)) ∧
      (old_name ∈ sindexes → new_name ∈ sindexes → overwrite = false →
        sindex_rename sindexes old_name new_name overwrite =
          (sindex_rename_result_t.NEW_NAME_EXISTS, sindexes)) ∧
      (old_name ∈ sindexes → (new_name ∉ sindexes ∨ overwrite = true) →
        (sindex_rename sindexes old_name new_name overwrite).1 =
          sindex_rename_result_t.SUCCESS ∧
        new_name ∈ sindex_list (sindex_rename sindexes old_name new_name overwrite).2 ∧
        (old_name ≠ new_name →
          old_name ∉ sindex_list (sindex_rename sindexes old_name new_name overwrite).2)) := by
  intro sindexes old_name new_name overwrite
  refine ⟨fun h1 => ?_, fun h1 h2 h3 => ?_, fun h1 h2 => ?_⟩
  · simp [sindex_rename, h1]
  · subst h3
    simp [sindex_rename, h1, h2]
  · have hcond : ¬(new_name ∈ sindexes ∧ overwrite = false) := by
      rcases h2 with h | h
      · exact fun hx => h hx.1
      · intro hx
        rw [h] at hx
        cases hx.2
    have hres : sindex_rename sindexes old_name new_name overwrite =
        (sindex_rename_result_t.SUCCESS,
         new_name :: sindexes.filter (fun x => !(x == old_name) && !(x == new_name))) := by
      simp [sindex_rename, h1, hcond]
    refine ⟨by rw [hres], ?_, fun hne => ?_⟩
    · rw [hres]
      simp only [sindex_list]
      exact List.mem_cons_self _ _
    · rw [hres]
      simp only [sindex_list]
      intro hmem
      rcases List.mem_cons.mp hmem with h | h
      · exact hne h
      · have hp := List.of_mem_filter h
        simp at hp

/-- Witness for C4 amended: the three outcomes at concrete index lists. -/
theorem sindex_rename_outcomes_witness :
    sindex_rename ["a", "b"] "z" "c" false =
      (sindex_rename_result_t.OLD_NAME_DOESNT_EXIST, ["a", "b"]) ∧
    sindex_rename ["a", "b"] "a" "b" false =
      (sindex_rename_result_t.NEW_NAME_EXISTS, ["a", "b"]) ∧
    (sindex_rename ["a", "b"] "a" "c" false).1 = sindex_rename_result_t.SUCCESS ∧
    "c" ∈ sindex_list (sindex_rename ["a", "b"] "a" "c" false).2 ∧
    "a" ∉ sindex_list (sindex_rename ["a", "b"] "a" "c" false).2 := by
  obtain ⟨-, -, w3⟩ := sindex_rename_outcomes ["a", "b"] "a" "c" false
  obtain ⟨w3a, w3b, w3c⟩ := w3 (by decide) (Or.inl (by decide))
  exact ⟨(sindex_rename_outcomes ["a", "b"] "z" "c" false).1 (by decide),
    (sindex_rename_outcomes ["a", "b"] "a" "b" false).2.1 (by decide) (by decide) rfl,
    w3a, w3b, w3c (by decide)⟩

/-- Counterexample for C1: when the cancellation signal has fired, db_create
on the empty cluster propagates the interruption through the
thrown-exception channel of the source contract, which is neither the
boolean-plus-description failure value nor a success. -/
theorem interrupted_not_failure_value_counterexample :
    (run (admin_op.op_db_create "d") true ⟨[], [], 0⟩).1 =
      admin_result.interrupted ∧
    is_failure_value (run (admin_op.op_db_create "d") true ⟨[], [], 0⟩).1 = false ∧
    is_success (run (admin_op.op_db_create "d") true ⟨[], [], 0⟩).1 = false := by
  decide

/-- The possible uninterrupted outcomes of db_create. -/
theorem db_create_cases (nm : name_string_t) (s : ClusterState) :
    (∃ a, (db_create nm false s).1 = admin_result.success a) ∨
    (db_create nm false s).1 =
      admin_result.failure error_kind.AlreadyExists "Database already exists." := by
  cases h : (s.dbs.any fun d => d.name == nm)
  · exact Or.inl ⟨(), by simp [db_create, h]⟩
  · exact Or.inr (by simp [db_create, h])

/-- The possible uninterrupted outcomes of db_drop. -/
theorem db_drop_cases (nm : name_string_t) (s : ClusterState) :
    (∃ a, (db_drop nm false s).1 = admin_result.success a) ∨
    (db_drop nm false s).1 =
      admin_result.failure error_kind.NotFound "Database does not exist." := by
  cases h : s.dbs.find? (fun d => d.name == nm)
  · exact Or.inr (by simp [db_drop, h])
  · exact Or.inl ⟨(), by simp [db_drop, h]⟩

/-- The possible uninterrupted outcomes of table_create. -/
theorem table_create_cases (nm : name_string_t) (db : db_t)
    (cfg : table_generate_config_params_t) (pk : String)
    (dur : write_durability_t) (s : ClusterState) :
    (∃ a, (table_create nm db cfg pk dur false s).1 = admin_result.success a) ∨
    (table_create nm db cfg pk dur false s).1 =
      admin_result.failure error_kind.AlreadyExists "Table already exists." ∨
    (table_create nm db cfg pk dur false s).1 =
      admin_result.failure error_kind.Invalid "Invalid replication configuration." := by
  cases h1 : (findTable s db.id nm).isSome
  · cases h2 : configValid cfg
    · exact Or.inr (Or.inr (by simp [table_create, h1, h2]))
    · exact Or.inl ⟨(), by simp [table_create, h1, h2]⟩
  · exact Or.inr (Or.inl (by simp [table_create, h1]))

/-- The possible uninterrupted outcomes of table_drop. -/
theorem table_drop_cases (nm : name_string_t) (db : db_t) (s : ClusterState) :
    (∃ a, (table_drop nm db false s).1 = admin_result.success a) ∨
    (table_drop nm db false s).1 =
      admin_result.failure error_kind.NotFound "Table does not exist." := by
  cases h : (findTable s db.id nm).isSome
  · exact Or.inr (by simp [table_drop, h])
  · exact Or.inl ⟨(), by simp [table_drop, h]⟩

/-- The possible uninterrupted outcomes of table_reconfigure. -/
theorem table_reconfigure_cases (db : db_t) (nm : name_string_t)
    (params : table_generate_config_params_t) (dry : Bool) (s : ClusterState) :
    (∃ a, (table_reconfigure db nm params dry false s).1 = admin_result.success a) ∨
    (table_reconfigure db nm params dry false s).1 =
      admin_result.failure error_kind.NotFound "Table does not exist." ∨
    (table_reconfigure db nm params dry false s).1 =
      admin_result.failure error_kind.Invalid "Invalid replication configuration." := by
  cases hf : findTable s db.id nm
  · exact Or.inr (Or.inl (by simp [table_reconfigure, hf]))
  · cases hv : configValid params
    · exact Or.inr (Or.inr (by simp [table_reconfigure, hf, hv]))
    · cases hd : dry
      · exact Or.inl ⟨params, by simp [table_reconfigure, hf, hv]⟩
      · exact Or.inl ⟨params, by simp [table_reconfigure, hf, hv]⟩

/-- The possible uninterrupted outcomes of sindex_rename_cluster. -/
theorem sindex_rename_cluster_cases (db : db_t) (nm : name_string_t)
    (old_name new_name : String) (ow : Bool) (s : ClusterState) :
    (∃ a, (sindex_rename_cluster db nm old_name new_name ow false s).1 =
      admin_result.success a) ∨
    (sindex_rename_cluster db nm old_name new_name ow false s).1 =
      admin_result.failure error_kind.NotFound "Table does not exist." := by
  cases hf : findTable s db.id nm with
  | none => exact Or.inr (by simp [sindex_rename_cluster, hf])
  | some t =>
    exact Or.inl ⟨(sindex_rename t.sindexes old_name new_name ow).1,
      by simp [sindex_rename_cluster, hf]⟩

/-- The possible uninterrupted outcomes of table_find. -/
theorem table_find_cases (nm : name_string_t) (db : db_t)
    (fmt : Option admin_identifier_format_t) (s : ClusterState) :
    (∃ a, table_find nm db fmt false s = admin_result.success a) ∨
    table_find nm db fmt false s =
      admin_result.failure error_kind.NotFound "Table does not exist." := by
  cases hf : findTable s db.id nm with
  | none => exact Or.inr (by simp [table_find, hf])
  | some t =>
    exact Or.inl ⟨⟨t.table_id, t.pkey, fmt.getD admin_identifier_format_t.name⟩,
      by simp [table_find, hf]⟩

/-- C1 amended: every modelled operation yields exactly one of three
outcomes — with the cancellation signal fired it aborts with the thrown
interruption, a channel distinct from the failure value; otherwise it returns
either a success payload or a failure value tagged by the error taxonomy and
carrying a nonempty human-readable description, and never the interruption. -/
theorem admin_ops_error_channels :
    ∀ (op : admin_op) (s : ClusterState),
      (run op true s).1 = admin_result.interrupted ∧
      (run op false s).1 ≠ admin_result.interrupted ∧
      (∀ k msg, (run op false s).1 = admin_result.failure k msg → msg ≠ "") := by
  intro op s
  refine ⟨by cases op <;> rfl, ?_, ?_⟩
  · cases op with
    | op_db_create nm =>
      rcases db_create_cases nm s with ⟨a, ha⟩ | hb
      · simp [run, ha, map_result]
      · simp [run, hb, map_result]
    | op_db_drop nm =>
      rcases db_drop_cases nm s with ⟨a, ha⟩ | hb
      · simp [run, ha, map_result]
      · simp [run, hb, map_result]
    | op_table_create nm db cfg pk dur =>
      rcases table_create_cases nm db cfg pk dur s with ⟨a, ha⟩ | hb | hb
      · simp [run, ha, map_result]
      · simp [run, hb, map_result]
      · simp [run, hb, map_result]
    | op_table_drop nm db =>
      rcases table_drop_cases nm db s with ⟨a, ha⟩ | hb
      · simp [run, ha, map_result]
      · simp [run, hb, map_result]
    | op_table_reconfigure db nm params dry =>
      rcases table_reconfigure_cases db nm params dry s with ⟨a, ha⟩ | hb | hb
      · simp [run, ha, map_result]
      · simp [run, hb, map_result]
      · simp [run, hb, map_result]
    | op_sindex_rename db nm old_name new_name ow =>
      rcases sindex_rename_cluster_cases db nm old_name new_name ow s with ⟨a, ha⟩ | hb
      · simp [run, ha, map_result]
      · simp [run, hb, map_result]
    | op_table_find nm db fmt =>
      rcases table_find_cases nm db fmt s with ⟨a, ha⟩ | hb
      · simp [run, ha, map_result]
      · simp [run, hb, map_result]
  · intro k msg h
    cases op with
    | op_db_create nm =>
      rcases db_create_cases nm s with ⟨a, ha⟩ | hb
      · simp [run, ha, map_result] at h
      · simp [run, hb, map_result] at h
        rcases h with ⟨-, rfl⟩
        decide
    | op_db_drop nm =>
      rcases db_drop_cases nm s with ⟨a, ha⟩ | hb
      · simp [run, ha, map_result] at h
      · simp [run, hb, map_result] at h
        rcases h with ⟨-, rfl⟩
        decide
    | op_table_create nm db cfg pk dur =>
      rcases table_create_cases nm db cfg pk dur s with ⟨a, ha⟩ | hb | hb
      · simp [run, ha, map_result] at h
      · simp [run, hb, map_result] at h
        rcases h with ⟨-, rfl⟩
        decide
      · simp [run, hb, map_result] at h
        rcases h with ⟨-, rfl⟩
        decide
    | op_table_drop nm db =>
      rcases table_drop_cases nm db s with ⟨a, ha⟩ | hb
      · simp [run, ha, map_result] at h
      · simp [run, hb, map_result] at h
        rcases h with ⟨-, rfl⟩
        decide
    | op_table_reconfigure db nm params dry =>
      rcases table_reconfigure_cases db nm params dry s with ⟨a, ha⟩ | hb | hb
      · simp [run, ha, map_result] at h
      · simp [run, hb, map_result] at h
        rcases h with ⟨-, rfl⟩
        decide
      · simp [run, hb, map_result] at h
        rcases h with ⟨-, rfl⟩
        decide
    | op_sindex_rename db nm old_name new_name ow =>
      rcases sindex_rename_cluster_cases db nm old_name new_name ow s with ⟨a, ha⟩ | hb
      · simp [run, ha, map_result] at h
      · simp [run, hb, map_result] at h
        rcases h with ⟨-, rfl⟩
        decide
    | op_table_find nm db fmt =>
      rcases table_find_cases nm db fmt s with ⟨a, ha⟩ | hb
      · simp [run, ha, map_result] at h
      · simp [run, hb, map_result] at h
        rcases h with ⟨-, rfl⟩
        decide

/-- Witness for C1 amended: the three channels observed on a concrete
cluster — interruption fires on db_create with the signal set, an
uninterrupted db_create succeeds, and a duplicate db_create fails with a
nonempty description. -/
theorem admin_ops_error_channels_witness :
    (run (admin_op.op_db_create "d") true ⟨[⟨0, "d"⟩], [], 1⟩).1 =
      admin_result.interrupted ∧
    (run (admin_op.op_db_create "d") false ⟨[⟨0, "d"⟩], [], 1⟩).1 ≠
      admin_result.interrupted ∧
    "Database already exists." ≠ "" := by
  obtain ⟨w1, w2, w3⟩ :=
    admin_ops_error_channels (admin_op.op_db_create "d") ⟨[⟨0, "d"⟩], [], 1⟩
  exact ⟨w1, w2, w3 error_kind.AlreadyExists "Database already exists." (by decide)⟩

/-- C10: the ReplicationConfig type enforces none of the replication
invariant at construction — a zero shard count, an empty replica map, a zero
replica count, and a primary tag absent from the map are all representable
values of table_generate_config_params_t — so every consuming operation must
validate the invariant itself: with the table name free, table_create rejects
an invariant-violating config with Invalid and leaves the state unchanged,
and table_reconfigure on an existing table likewise rejects it with Invalid
and leaves the state unchanged. -/
theorem config_params_not_validated_at_construction :
    configValid ⟨0, [("default", 1)], "default"⟩ = false ∧
    configValid ⟨1, [], "default"⟩ = false ∧
    configValid ⟨1, [("default", 0)], "default"⟩ = false ∧
    configValid ⟨1, [("other", 1)], "default"⟩ = false ∧
    (∀ (nm : name_string_t) (db : db_t) (cfg : table_generate_config_params_t)
       (pk : String) (dur : write_durability_t) (s : ClusterState),
      (findTable s db.id nm).isSome = false → configValid cfg = false →
      (table_create nm db cfg pk dur false s).1 =
        admin_result.failure error_kind.Invalid "Invalid replication configuration." ∧
      (table_create nm db cfg pk dur false s).2 = s) ∧
    (∀ (db : db_t) (nm : name_string_t) (cfg : table_generate_config_params_t)
       (dry : Bool) (s : ClusterState),
      (findTable s db.id nm).isSome = true → configValid cfg = false →
      (table_reconfigure db nm cfg dry false s).1 =
        admin_result.failure error_kind.Invalid "Invalid replication configuration." ∧
      (table_reconfigure db nm cfg dry false s).2 = s) := by
  refine ⟨by decide, by decide, by decide, by decide, ?_, ?_⟩
  · intro nm db cfg pk dur s h1 h2
    constructor
    · simp [table_create, h1, h2]
    · simp [table_create, h1, h2]
  · intro db nm cfg dry s h1 h2
    have hsome : ∃ t, findTable s db.id nm = some t := by
      cases hx : findTable s db.id nm
      · rw [hx] at h1
        cases h1
      · exact ⟨_, rfl⟩
    obtain ⟨t, ht⟩ := hsome
    constructor
    · simp [table_reconfigure, ht, h2]
    · simp [table_reconfigure, ht, h2]

/-- Witness for C10: on a one-table cluster, creating a second table with a
zero-shard config fails Invalid without touching the state, and
reconfiguring the existing table with an empty replica map fails Invalid
without touching the state. -/
theorem config_params_not_validated_witness :
    (table_create "u" ⟨0, "d"⟩ ⟨0, [("default", 1)], "default"⟩ "id"
      write_durability_t.soft false
      ⟨[⟨0, "d"⟩], [⟨1, 0, "t", "id", table_generate_config_params_t.make_default,
        table_readiness_t.reads, []⟩], 2⟩).1 =
      admin_result.failure error_kind.Invalid "Invalid replication configuration." ∧
    (table_reconfigure ⟨0, "d"⟩ "t" ⟨1, [], "default"⟩ false false
      ⟨[⟨0, "d"⟩], [⟨1, 0, "t", "id", table_generate_config_params_t.make_default,
        table_readiness_t.reads, []⟩], 2⟩).2 =
      ⟨[⟨0, "d"⟩], [⟨1, 0, "t", "id", table_generate_config_params_t.make_default,
        table_readiness_t.reads, []⟩], 2⟩ := by
  constructor
  · exact (config_params_not_validated_at_construction.2.2.2.2.1
      "u" ⟨0, "d"⟩ ⟨0, [("default", 1)], "default"⟩ "id" write_durability_t.soft
      ⟨[⟨0, "d"⟩], [⟨1, 0, "t", "id", table_generate_config_params_t.make_default,
        table_readiness_t.reads, []⟩], 2⟩ (by decide) (by decide)).1
  · exact (config_params_not_validated_at_construction.2.2.2.2.2
      ⟨0, "d"⟩ "t" ⟨1, [], "default"⟩ false
      ⟨[⟨0, "d"⟩], [⟨1, 0, "t", "id", table_generate_config_params_t.make_default,
        table_readiness_t.reads, []⟩], 2⟩ (by decide) (by decide)).2

/-- Two finds by a duplicate-free key agree across a filter of the list. -/
theorem find_key_filter_eq {α : Type} (key : α → Nat) {l : List α}
    (hn : (l.map key).Nodup) (q : α → Bool) {tid : Nat} {a b : α}
    (h1 : l.find? (fun x => key x == tid) = some a)
    (h2 : (l.filter q).find? (fun x => key x == tid) = some b) : b = a := by
  rw [find_filter_comm] at h2
  have hbm : b ∈ l := List.mem_of_find?_eq_some h2
  have hbp := List.find?_some h2
  have ham : a ∈ l := List.mem_of_find?_eq_some h1
  have hap := List.find?_some h1
  have hka : key a = tid := by simpa using hap
  have hkb : key b = tid := by
    have hx := hbp
    simp at hx
    exact hx.2
  exact List.inj_on_of_nodup_map hn hbm ham (by rw [hka, hkb])

/-- A find by key across a key-preserving map is the image of the original
find. -/
theorem find_key_map_eq {α : Type} (key : α → Nat) (f : α → α)
    (hf : ∀ x, key (f x) = key x) {l : List α} {tid : Nat} {a b : α}
    (h1 : l.find? (fun x => key x == tid) = some a)
    (h2 : (l.map f).find? (fun x => key x == tid) = some b) : b = f a := by
  rw [find_map_comm] at h2
  have hpe : (fun x => key (f x) == tid) = (fun x => key x == tid) := by
    funext x
    rw [hf]
  rw [hpe, h1] at h2
  exact (Option.some.inj h2).symm

/-- The possible successor states of db_create. -/
theorem db_create_state (nm : name_string_t) (s : ClusterState) :
    (db_create nm false s).2 = s ∨
    (db_create nm false s).2 = ⟨s.dbs ++ [⟨s.next_id, nm⟩], s.tables, s.next_id + 1⟩ := by
  cases h : (s.dbs.any fun d => d.name == nm)
  · exact Or.inr (by simp [db_create, h])
  · exact Or.inl (by simp [db_create, h])

/-- The possible successor states of db_drop. -/
theorem db_drop_state (nm : name_string_t) (s : ClusterState) :
    (db_drop nm false s).2 = s ∨
    ∃ i, (db_drop nm false s).2 =
      ⟨s.dbs.filter (fun d2 => d2.id != i),
       s.tables.filter (fun t => t.db_id != i), s.next_id⟩ := by
  cases h : s.dbs.find? (fun d => d.name == nm) with
  | none => exact Or.inl (by simp [db_drop, h])
  | some d => exact Or.inr ⟨d.id, by simp [db_drop, h]⟩

/-- The possible successor states of table_create. -/
theorem table_create_state (nm : name_string_t) (db : db_t)
    (cfg : table_generate_config_params_t) (pk : String)
    (dur : write_durability_t) (s : ClusterState) :
    (table_create nm db cfg pk dur false s).2 = s ∨
    (table_create nm db cfg pk dur false s).2 =
      ⟨s.dbs,
       s.tables ++ [⟨s.next_id, db.id, nm, pk, cfg, table_readiness_t.reads, []⟩],
       s.next_id + 1⟩ := by
  cases h1 : (findTable s db.id nm).isSome
  · cases h2 : configValid cfg
    · exact Or.inl (by simp [table_create, h1, h2])
    · exact Or.inr (by simp [table_create, h1, h2])
  · exact Or.inl (by simp [table_create, h1])

/-- The possible successor states of table_drop. -/
theorem table_drop_state (nm : name_string_t) (db : db_t) (s : ClusterState) :
    (table_drop nm db false s).2 = s ∨
    (table_drop nm db false s).2 =
      ⟨s.dbs, s.tables.filter (fun t => !(t.db_id == db.id && t.tbl_name == nm)),
       s.next_id⟩ := by
  cases h : (findTable s db.id nm).isSome
  · exact Or.inl (by simp [table_drop, h])
  · exact Or.inr (by simp [table_drop, h])

/-- The possible successor states of table_reconfigure. -/
theorem table_reconfigure_state (db : db_t) (nm : name_string_t)
    (params : table_generate_config_params_t) (dry : Bool) (s : ClusterState) :
    (table_reconfigure db nm params dry false s).2 = s ∨
    (table_reconfigure db nm params dry false s).2 =
      ⟨s.dbs,
       s.tables.map (fun u =>
         if u.db_id == db.id && u.tbl_name == nm then u.set_config params else u),
       s.next_id⟩ := by
  cases hf : findTable s db.id nm with
  | none => exact Or.inl (by simp [table_reconfigure, hf])
  | some t =>
    cases hv : configValid params
    · exact Or.inl (by simp [table_reconfigure, hf, hv])
    · cases hd : dry
      · exact Or.inr (by simp [table_reconfigure, hf, hv])
      · exact Or.inl (by simp [table_reconfigure, hf, hv])

/-- The possible successor states of sindex_rename_cluster. -/
theorem sindex_rename_cluster_state (db : db_t) (nm : name_string_t)
    (old_name new_name : String) (ow : Bool) (s : ClusterState) :
    (sindex_rename_cluster db nm old_name new_name ow false s).2 = s ∨
    (sindex_rename_cluster db nm old_name new_name ow false s).2 =
      ⟨s.dbs,
       s.tables.map (fun u =>
         if u.db_id == db.id && u.tbl_name == nm then
           u.set_sindexes (sindex_rename u.sindexes old_name new_name ow).2
         else u),
       s.next_id⟩ := by
  cases hf : findTable s db.id nm with
  | none => exact Or.inl (by simp [sindex_rename_cluster, hf])
  | some t => exact Or.inr (by simp [sindex_rename_cluster, hf])

/-- Across every modelled uninterrupted operation the table list is either
extended at the back, filtered, or mapped by an identity-preserving update. -/
theorem run_tables_shape (op : admin_op) (s : ClusterState) :
    (∃ l2, (run op false s).2.tables = s.tables ++ l2) ∨
    (∃ q, (run op false s).2.tables = s.tables.filter q) ∨
    (∃ f : TableRec → TableRec, (∀ u, (f u).table_id = u.table_id) ∧
      (∀ u, (f u).pkey = u.pkey) ∧ (run op false s).2.tables = s.tables.map f) := by
  cases op with
  | op_db_create nm =>
    rcases db_create_state nm s with hs | hs
    · refine Or.inl ⟨[], ?_⟩
      show (db_create nm false s).2.tables = s.tables ++ []
      rw [hs]
      simp
    · refine Or.inl ⟨[], ?_⟩
      show (db_create nm false s).2.tables = s.tables ++ []
      rw [hs]
      simp
  | op_db_drop nm =>
    rcases db_drop_state nm s with hs | ⟨i, hs⟩
    · refine Or.inl ⟨[], ?_⟩
      show (db_drop nm false s).2.tables = s.tables ++ []
      rw [hs]
      simp
    · refine Or.inr (Or.inl ⟨(fun t => t.db_id != i), ?_⟩)
      show (db_drop nm false s).2.tables = s.tables.filter (fun t => t.db_id != i)
      rw [hs]
  | op_table_create nm db cfg pk dur =>
    rcases table_create_state nm db cfg pk dur s with hs | hs
    · refine Or.inl ⟨[], ?_⟩
      show (table_create nm db cfg pk dur false s).2.tables = s.tables ++ []
      rw [hs]
      simp
    · refine Or.inl
        ⟨[⟨s.next_id, db.id, nm, pk, cfg, table_readiness_t.reads, []⟩], ?_⟩
      show (table_create nm db cfg pk dur false s).2.tables =
        s.tables ++ [⟨s.next_id, db.id, nm, pk, cfg, table_readiness_t.reads, []⟩]
      rw [hs]
  | op_table_drop nm db =>
    rcases table_drop_state nm db s with hs | hs
    · refine Or.inl ⟨[], ?_⟩
      show (table_drop nm db false s).2.tables = s.tables ++ []
      rw [hs]
      simp
    · refine Or.inr (Or.inl ⟨(fun t => !(t.db_id == db.id && t.tbl_name == nm)), ?_⟩)
      show (table_drop nm db false s).2.tables =
        s.tables.filter (fun t => !(t.db_id == db.id && t.tbl_name == nm))
      rw [hs]
  | op_table_reconfigure db nm params dry =>
    rcases table_reconfigure_state db nm params dry s with hs | hs
    · refine Or.inl ⟨[], ?_⟩
      show (table_reconfigure db nm params dry false s).2.tables = s.tables ++ []
      rw [hs]
      simp
    · refine Or.inr (Or.inr
        ⟨(fun u => if u.db_id == db.id && u.tbl_name == nm then
            u.set_config params else u), fun u => ?_, fun u => ?_, ?_⟩)
      · cases hc : (u.db_id == db.id && u.tbl_name == nm) <;>
          simp [hc, TableRec.set_config]
      · cases hc : (u.db_id == db.id && u.tbl_name == nm) <;>
          simp [hc, TableRec.set_config]
      · show (table_reconfigure db nm params dry false s).2.tables =
          s.tables.map (fun u => if u.db_id == db.id && u.tbl_name == nm then
            u.set_config params else u)
        rw [hs]
  | op_sindex_rename db nm old_name new_name ow =>
    rcases sindex_rename_cluster_state db nm old_name new_name ow s with hs | hs
    · refine Or.inl ⟨[], ?_⟩
      show (sindex_rename_cluster db nm old_name new_name ow false s).2.tables =
        s.tables ++ []
      rw [hs]
      simp
    · refine Or.inr (Or.inr
        ⟨(fun u => if u.db_id == db.id && u.tbl_name == nm then
            u.set_sindexes (sindex_rename u.sindexes old_name new_name ow).2
          else u), fun u => ?_, fun u => ?_, ?_⟩)
      · cases hc : (u.db_id == db.id && u.tbl_name == nm) <;>
          simp [hc, TableRec.set_sindexes]
      · cases hc : (u.db_id == db.id && u.tbl_name == nm) <;>
          simp [hc, TableRec.set_sindexes]
      · show (sindex_rename_cluster db nm old_name new_name ow false s).2.tables =
          s.tables.map (fun u => if u.db_id == db.id && u.tbl_name == nm then
            u.set_sindexes (sindex_rename u.sindexes old_name new_name ow).2 else u)
        rw [hs]
  | op_table_find nm db fmt =>
    refine Or.inl ⟨[], ?_⟩
    show s.tables = s.tables ++ []
    simp

/-- Across every modelled uninterrupted operation the database list is either
extended at the back or filtered; database records are never rewritten. -/
theorem run_dbs_shape (op : admin_op) (s : ClusterState) :
    (∃ l2, (run op false s).2.dbs = s.dbs ++ l2) ∨
    (∃ q, (run op false s).2.dbs = s.dbs.filter q) := by
  cases op with
  | op_db_create nm =>
    rcases db_create_state nm s with hs | hs
    · refine Or.inl ⟨[], ?_⟩
      show (db_create nm false s).2.dbs = s.dbs ++ []
      rw [hs]
      simp
    · refine Or.inl ⟨[⟨s.next_id, nm⟩], ?_⟩
      show (db_create nm false s).2.dbs = s.dbs ++ [⟨s.next_id, nm⟩]
      rw [hs]
  | op_db_drop nm =>
    rcases db_drop_state nm s with hs | ⟨i, hs⟩
    · refine Or.inl ⟨[], ?_⟩
      show (db_drop nm false s).2.dbs = s.dbs ++ []
      rw [hs]
      simp
    · refine Or.inr ⟨(fun d2 => d2.id != i), ?_⟩
      show (db_drop nm false s).2.dbs = s.dbs.filter (fun d2 => d2.id != i)
      rw [hs]
  | op_table_create nm db cfg pk dur =>
    rcases table_create_state nm db cfg pk dur s with hs | hs <;>
      (refine Or.inl ⟨[], ?_⟩
       show (table_create nm db cfg pk dur false s).2.dbs = s.dbs ++ []
       rw [hs]
       simp)
  | op_table_drop nm db =>
    rcases table_drop_state nm db s with hs | hs <;>
      (refine Or.inl ⟨[], ?_⟩
       show (table_drop nm db false s).2.dbs = s.dbs ++ []
       rw [hs]
       simp)
  | op_table_reconfigure db nm params dry =>
    rcases table_reconfigure_state db nm params dry s with hs | hs <;>
      (refine Or.inl ⟨[], ?_⟩
       show (table_reconfigure db nm params dry false s).2.dbs = s.dbs ++ []
       rw [hs]
       simp)
  | op_sindex_rename db nm old_name new_name ow =>
    rcases sindex_rename_cluster_state db nm old_name new_name ow s with hs | hs <;>
      (refine Or.inl ⟨[], ?_⟩
       show (sindex_rename_cluster db nm old_name new_name ow false s).2.dbs =
         s.dbs ++ []
       rw [hs]
       simp)
  | op_table_find nm db fmt =>
    refine Or.inl ⟨[], ?_⟩
    show s.dbs = s.dbs ++ []
    simp

/-- C7: handle identity fields are immutable for the handle lifetime — across
every modelled administrative operation, with or without interruption, the
table retrieved under a given table id keeps its primary-key field name (the
id being the retrieval key itself), and the database retrieved under a given
database id keeps its name; db_t and table records fix these fields at
construction and no operation rewrites them. -/
theorem handle_identity_immutable :
    ∀ (op : admin_op) (interruptor : Bool) (s : ClusterState),
      (s.tables.map TableRec.table_id).Nodup →
      (s.dbs.map db_t.id).Nodup →
      (∀ tid t1 t2, findTableById s tid = some t1 →
          findTableById (run op interruptor s).2 tid = some t2 →
          t2.pkey = t1.pkey) ∧
      (∀ i d1 d2, findDbById s i = some d1 →
          findDbById (run op interruptor s).2 i = some d2 →
          d2.name = d1.name) := by
  intro op interruptor s hnt hnd
  cases interruptor
  · constructor
    · intro tid t1 t2 h1 h2
      have h1l : s.tables.find? (fun x => TableRec.table_id x == tid) = some t1 := h1
      have h2l : (run op false s).2.tables.find?
          (fun x => TableRec.table_id x == tid) = some t2 := h2
      rcases run_tables_shape op s with ⟨l2, hsh⟩ | ⟨q, hsh⟩ | ⟨f, hid, hpk, hsh⟩
      · rw [hsh, find_append_some l2 h1l] at h2l
        cases h2l
        rfl
      · rw [hsh] at h2l
        rw [find_key_filter_eq TableRec.table_id hnt q h1l h2l]
      · rw [hsh] at h2l
        rw [find_key_map_eq TableRec.table_id f hid h1l h2l, hpk t1]
    · intro i d1 d2 h1 h2
      have h1l : s.dbs.find? (fun x => db_t.id x == i) = some d1 := h1
      have h2l : (run op false s).2.dbs.find?
          (fun x => db_t.id x == i) = some d2 := h2
      rcases run_dbs_shape op s with ⟨l2, hsh⟩ | ⟨q, hsh⟩
      · rw [hsh, find_append_some l2 h1l] at h2l
        cases h2l
        rfl
      · rw [hsh] at h2l
        rw [find_key_filter_eq db_t.id hnd q h1l h2l]
  · have hstate : (run op true s).2 = s := by cases op <;> rfl
    constructor
    · intro tid t1 t2 h1 h2
      rw [hstate, h1] at h2
      cases h2
      rfl
    · intro i d1 d2 h1 h2
      rw [hstate, h1] at h2
      cases h2
      rfl

/-- Witness for C7: applying a non-dry reconfigure to a one-table cluster,
the table retrieved under id 1 keeps primary key "id" even though its config
changed. -/
theorem handle_identity_immutable_witness :
    TableRec.pkey ⟨1, 0, "t", "id", ⟨2, [("default", 2)], "default"⟩,
      table_readiness_t.reads, []⟩ =
    TableRec.pkey ⟨1, 0, "t", "id", table_generate_config_params_t.make_default,
      table_readiness_t.reads, []⟩ := by
  exact (handle_identity_immutable
    (admin_op.op_table_reconfigure ⟨0, "d"⟩ "t" ⟨2, [("default", 2)], "default"⟩ false)
    false
    ⟨[⟨0, "d"⟩], [⟨1, 0, "t", "id", table_generate_config_params_t.make_default,
      table_readiness_t.reads, []⟩], 2⟩
    (by decide) (by decide)).1 1
    ⟨1, 0, "t", "id", table_generate_config_params_t.make_default,
      table_readiness_t.reads, []⟩
    ⟨1, 0, "t", "id", ⟨2, [("default", 2)], "default"⟩,
      table_readiness_t.reads, []⟩
    (by decide) (by decide)
